import Mathlib

/-!
# Schedy — Voice-Command Understanding Pipeline: verification development

This file embeds the Schedy repository for verification.

The repository ships two kinds of material:

* the client code under `src/client/` (`Welcome.tsx`, which also carries the
  axios `request` helper) — embedded directly from the TypeScript source;
* the Voice-Command Understanding Pipeline of the specification.  Its
  implementation (a Python backend — only its dependency manifest
  `requirements.txt` ships in the repository) is not present in the sources,
  so every pipeline definition below is *modelled from the spec*: data model
  (§3), component design (§4), external interface (§6) and error taxonomy
  (§7) of `spec.md`.  Each such definition carries a doc comment starting
  with `Modelled from the spec:`.

Confidences and similarity scores are rationals of the spec's `[0,1]`
represented in hundredths (`Nat` in `[0,100]`: the spec's `1.0` is `100`,
its `0.65` is `65`); timestamps are minutes since an arbitrary epoch
(`Nat`).  This keeps every definition executable and every concrete
instance kernel-decidable.
-/

namespace Schedy

/-! ## Pipeline data model (modelled from the spec) -/

/-- Modelled from the spec: a caller-supplied known task, `{id, title}`
(§6 invocation contract).  The pipeline implementation is absent from
`src/`; this and all pipeline definitions below follow `spec.md`. -/
structure KnownTask where
  id : Nat
  title : String
  deriving DecidableEq, Repr

/-- Modelled from the spec: `IntentLabel` — one of CREATE, COMPLETE, DELETE,
RESCHEDULE, QUERY, UNKNOWN (§3). -/
inductive IntentLabel where
  | CREATE | COMPLETE | DELETE | RESCHEDULE | QUERY | UNKNOWN
  deriving DecidableEq, Repr, BEq

/-- Modelled from the spec: a normalized token — surface form plus lemma
(dictionary form).  §4.1 asks only for the minimal tags later stages need;
the later stages here consume the lemma. -/
structure Token where
  surface : String
  lemmaStr : String
  deriving DecidableEq, Repr

/-- Modelled from the spec: the resolved value of a temporal expression —
a concrete instant, an instant range, or a recurrence rule
(day-of-week set + time-of-day minute) (§3, §4.2). -/
inductive TemporalValue where
  | instant (t : Nat)
  | range (lo hi : Nat)
  | recurrence (days : List Nat) (minuteOfDay : Nat)
  deriving DecidableEq, Repr

/-- Modelled from the spec: `TemporalExpression` — span of tokens plus
resolved value (§3), with the resolver's confidence. -/
structure TemporalExpression where
  spanStart : Nat
  spanLen : Nat
  value : TemporalValue
  confidence : Nat
  deriving DecidableEq, Repr

/-- Modelled from the spec: `TaskCandidate` — a reference into the
caller-supplied known-task set plus a similarity score in `[0,1]` (hundredths) (§3). -/
structure TaskCandidate where
  taskId : Nat
  score : Nat
  deriving DecidableEq, Repr

/-- Modelled from the spec: a scheduled time — either a one-shot instant or
a recurrence rule; the two are distinct and must round-trip losslessly (§3). -/
inductive Schedule where
  | at (t : Nat)
  | recurring (days : List Nat) (minuteOfDay : Nat)
  deriving DecidableEq, Repr

/-- Modelled from the spec: task priority (§3). -/
inductive Priority where
  | LOW | MEDIUM | HIGH
  deriving DecidableEq, Repr

/-- Modelled from the spec: task status (§3). -/
inductive Status where
  | PENDING | DONE
  deriving DecidableEq, Repr

/-- Modelled from the spec: the output `Task` entity (§3): id, title,
scheduled time or recurrence rule (nullable), priority, status, source
utterance retained for audit, overall confidence. -/
structure Task where
  id : Nat
  title : String
  schedule : Option Schedule
  priority : Priority
  status : Status
  sourceUtterance : String
  confidence : Nat
  deriving DecidableEq, Repr

/-- Modelled from the spec: the kind of a mutation against an existing task
(complete, delete, reschedule) (§1, §3). -/
inductive MutationKind where
  | complete | delete | reschedule
  deriving DecidableEq, Repr

/-- Modelled from the spec: a resolved mutation — target id is the top
`TaskCandidate` id; RESCHEDULE carries the new schedule (§4.5).  The source
utterance is retained for traceability (§3 invariants). -/
structure Mutation where
  kind : MutationKind
  targetId : Nat
  newSchedule : Option Schedule
  sourceUtterance : String
  confidence : Nat
  deriving DecidableEq, Repr

/-- Modelled from the spec: the payload of a `Resolved` result — a new
`Task`, a `Mutation`, or a query over the candidate list (QUERY intents pass
through the same builder and policy gate, §4.4–§4.6). -/
inductive ResolvedPayload where
  | task (t : Task)
  | mutation (m : Mutation)
  | query (candidates : List TaskCandidate) (schedule : Option Schedule) (confidence : Nat)
  deriving DecidableEq, Repr

/-- Modelled from the spec: rejection reason codes from the error taxonomy
(§7): `UnknownIntent`, `NoTemporalAnchor`, `NoCandidate`, plus the
below-floor rejection of §4.6. -/
inductive RejectReason where
  | UnknownIntent | NoTemporalAnchor | NoCandidate | LowConfidence
  deriving DecidableEq, Repr

/-- Modelled from the spec: reason attached to a CLARIFY result (§4.6, §7):
genuine reference ambiguity, or a middle-band confidence. -/
inductive AmbiguityReason where
  | AmbiguousReference | LowIntentConfidence
  deriving DecidableEq, Repr

/-- Modelled from the spec: `PipelineResult` — tagged variant
`Resolved(Task or Mutation)` | `Ambiguous(candidates, reason)` |
`Rejected(reason)` (§3). -/
inductive PipelineResult where
  | Resolved (p : ResolvedPayload)
  | Ambiguous (candidates : List TaskCandidate) (reason : AmbiguityReason)
  | Rejected (reason : RejectReason)
  deriving DecidableEq, Repr

/-! ## Morphological Normalizer (spec §4.1) -/

/-- Modelled from the spec: whitespace segmentation (§4.1's locale-agnostic
tokenizer segments on whitespace); structural recursion over the character
list, accumulating the current word reversed. -/
def splitWordsAux : List Char → List Char → List String
  | [], [] => []
  | [], acc => [String.mk acc.reverse]
  | c :: cs, acc =>
    if c = ' ' then
      match acc with
      | [] => splitWordsAux cs []
      | _ => String.mk acc.reverse :: splitWordsAux cs []
    else splitWordsAux cs (c :: acc)

/-- Segment an utterance into whitespace-separated words. -/
def splitWords (s : String) : List String :=
  splitWordsAux s.toList []

/-- Modelled from the spec: strip enclosing punctuation from a token
(§4.1); leading and trailing non-alphanumeric characters are removed. -/
def stripPunct (s : String) : String :=
  let l := s.toList.dropWhile (fun c => !c.isAlphanum)
  String.mk ((l.reverse.dropWhile (fun c => !c.isAlphanum)).reverse)

/-- Parse a word consisting solely of decimal digits; structural recursion
(the temporal grammar needs hour numerals such as "7"). -/
def parseDigitsAux : List Char → Nat → Option Nat
  | [], acc => some acc
  | c :: cs, acc =>
    if c.isDigit then parseDigitsAux cs (acc * 10 + (c.toNat - 48)) else none

/-- Parse a non-empty all-digit word to a `Nat`. -/
def parseNum? (s : String) : Option Nat :=
  match s.toList with
  | [] => none
  | l => parseDigitsAux l 0

/-- Modelled from the spec: the read-only inflection table of the
morphological lexicon — maps an inflected surface form to its lemma
(dictionary form); forms not in the table are their own lemma (§4.1, §9). -/
def lemmaTable : List (String × String) :=
  [("reminds", "remind"), ("reminded", "remind"), ("reminding", "remind"),
   ("finished", "finish"), ("finishes", "finish"),
   ("completed", "complete"), ("completes", "complete"),
   ("deleted", "delete"), ("deletes", "delete"),
   ("removed", "remove"), ("removes", "remove"),
   ("moved", "move"), ("moves", "move"),
   ("rescheduled", "reschedule"), ("reschedules", "reschedule"),
   ("shows", "show"), ("showed", "show"),
   ("lists", "list"), ("listed", "list"),
   ("weekdays", "weekday"), ("mornings", "morning")]

/-- Modelled from the spec: lemmatization — dictionary lookup, identity
fallback (§4.1's locale-agnostic degradation never hard-fails). -/
def lemmatize (w : String) : String :=
  (lemmaTable.lookup w).getD w

/-- Modelled from the spec: the Morphological Normalizer (§4.1) — pure
function from raw utterance text to the ordered token sequence: lowercase,
segment on whitespace, strip enclosing punctuation, lemmatize. -/
def normalize (utterance : String) : List Token :=
  (splitWords (String.mk (utterance.toList.map Char.toLower))).filterMap fun w =>
    let s := stripPunct w
    if s = "" then none else some { surface := s, lemmaStr := lemmatize s }

/-! ## Intent Classifier (spec §4.3) -/

/-- Modelled from the spec: the closed per-locale lexicon of action lemmas
(§4.3, §6): remind/create → CREATE, finish/complete → COMPLETE,
delete/remove → DELETE, move/reschedule → RESCHEDULE, show/list → QUERY. -/
def actionLexicon : List (String × IntentLabel) :=
  [("remind", .CREATE), ("create", .CREATE), ("add", .CREATE),
   ("finish", .COMPLETE), ("complete", .COMPLETE), ("done", .COMPLETE),
   ("delete", .DELETE), ("remove", .DELETE),
   ("move", .RESCHEDULE), ("reschedule", .RESCHEDULE),
   ("show", .QUERY), ("list", .QUERY)]

/-- Modelled from the spec: the fixed confidence discount applied when
several competing action lemmas occur in one utterance (§4.3). -/
def conflictDiscount : Nat := 15

/-- Modelled from the spec: the Intent Classifier (§4.3).  Exact lemma
match → confidence 1; no match → UNKNOWN with confidence 0; multiple
competing action lemmas → the first in token order, confidence penalized by
the fixed discount. -/
def classifyIntent (tokens : List Token) : IntentLabel × Nat :=
  match tokens.filterMap (fun t => actionLexicon.lookup t.lemmaStr) with
  | [] => (.UNKNOWN, 0)
  | l :: rest => if rest.any (fun x => !(x == l)) then (l, 100 - conflictDiscount) else (l, 100)

/-! ## Temporal Expression Resolver (spec §4.2) -/

/-- Minutes in a day. -/
def minutesPerDay : Nat := 1440

/-- Start of the day (minute granularity) containing the reference instant. -/
def dayStart (ref : Nat) : Nat := ref - ref % minutesPerDay

/-- Modelled from the spec: resolve "at H" against the reference instant —
the coming occurrence of hour `h`: today if `h:00` has not yet passed
relative to the reference instant, else the next day (§8 requires this
policy to be explicit). -/
def resolveAtHour (ref h : Nat) : Nat :=
  let m := h * 60
  if ref % minutesPerDay < m then dayStart ref + m else dayStart ref + minutesPerDay + m

/-- Monday–Friday, as a day-of-week set (Monday = 1). -/
def weekdaySet : List Nat := [1, 2, 3, 4, 5]

/-- Modelled from the spec: temporal grammar, 4-token patterns —
"every weekday at H" → recurrence rule (§4.2). -/
def tryPat4 (toks : List Token) : Option (Nat × TemporalValue) :=
  match toks with
  | t1 :: t2 :: t3 :: t4 :: _ =>
    if t1.lemmaStr = "every" ∧ t2.lemmaStr = "weekday" ∧ t3.lemmaStr = "at" then
      match parseNum? t4.surface with
      | some h => if h < 24 then some (4, .recurrence weekdaySet (h * 60)) else none
      | none => none
    else none
  | _ => none

/-- Modelled from the spec: temporal grammar, 2-token patterns —
"every weekday" → recurrence rule with a default 9:00 time-of-day;
"at H" → concrete instant (§4.2). -/
def tryPat2 (ref : Nat) (toks : List Token) : Option (Nat × TemporalValue) :=
  match toks with
  | t1 :: t2 :: _ =>
    if t1.lemmaStr = "every" ∧ t2.lemmaStr = "weekday" then
      some (2, .recurrence weekdaySet (9 * 60))
    else if t1.lemmaStr = "at" then
      match parseNum? t2.surface with
      | some h => if h < 24 then some (2, .instant (resolveAtHour ref h)) else none
      | none => none
    else none
  | _ => none

/-- Modelled from the spec: temporal grammar, 1-token patterns —
"tomorrow" → range over the next day; "morning" → the 06:00–10:00 range
(§4.2; vague words resolve to ranges, midpoint used downstream). -/
def tryPat1 (ref : Nat) (toks : List Token) : Option (Nat × TemporalValue) :=
  match toks with
  | t1 :: _ =>
    if t1.lemmaStr = "tomorrow" then
      some (1, .range (dayStart ref + minutesPerDay) (dayStart ref + 2 * minutesPerDay))
    else if t1.lemmaStr = "morning" then
      some (1, .range (dayStart ref + 6 * 60) (dayStart ref + 10 * 60))
    else none
  | _ => none

/-- Modelled from the spec: pattern match at one position, longest span
first (§4.2's longest-span-first greedy match). -/
def matchPatternAt (ref : Nat) (toks : List Token) : Option (Nat × TemporalValue) :=
  (tryPat4 toks).orElse fun _ => (tryPat2 ref toks).orElse fun _ => tryPat1 ref toks

/-- Modelled from the spec: greedy scan over token positions; the first
position (token order) carrying a pattern match wins — at most one
`TemporalExpression` is produced (§4.2's first-disjoint-span-wins policy). -/
def scanTemporal (ref : Nat) (toks : List Token) (idx : Nat) : Option TemporalExpression :=
  match toks with
  | [] => none
  | _ :: rest =>
    match matchPatternAt ref toks with
    | some (len, v) => some { spanStart := idx, spanLen := len, value := v, confidence := 100 }
    | none => scanTemporal ref rest (idx + 1)

/-- Modelled from the spec: the Temporal Expression Resolver (§4.2) —
token sequence plus reference instant to zero-or-one `TemporalExpression`
(absence is valid, not an error, §3). -/
def resolveTemporal (ref : Nat) (toks : List Token) : Option TemporalExpression :=
  scanTemporal ref toks 0

/-! ## Task Reference Matcher (spec §4.4) -/

/-- Modelled from the spec: mutation-type intents (§4.6's "mutation-type":
COMPLETE, DELETE, RESCHEDULE modify an existing task). -/
def isMutation : IntentLabel → Bool
  | .COMPLETE | .DELETE | .RESCHEDULE => true
  | _ => false

/-- Modelled from the spec: intents for which the Task Reference Matcher is
invoked — every non-CREATE actionable intent (§4.4). -/
def usesMatcher : IntentLabel → Bool
  | .COMPLETE | .DELETE | .RESCHEDULE | .QUERY => true
  | _ => false

/-- Index of the action-cue token: the first token whose lemma is in the
action lexicon (spec §4.3's first-in-token-order policy). -/
def actionCueIndex (toks : List Token) : Option Nat :=
  toks.findIdx? (fun t => (actionLexicon.lookup t.lemmaStr).isSome)

/-- Modelled from the spec: residual lemmas for matching — the normalized
utterance tokens minus the action-cue span (§4.4). -/
def residualLemmas (toks : List Token) : List String :=
  match actionCueIndex toks with
  | some i => (toks.eraseIdx i).map (·.lemmaStr)
  | none => toks.map (·.lemmaStr)

/-- Modelled from the spec: normalized fuzzy similarity between two lemma
multisets, as the Jaccard ratio of the deduplicated lemma sets, in
hundredths (§4.4's case/inflection-insensitive comparison on lemmas). -/
def similarity (a b : List String) : Nat :=
  let da := a.dedup
  let db := b.dedup
  let inter := (da.filter (fun x => db.contains x)).length
  let union := (da ++ db.filter (fun x => !da.contains x)).length
  if union = 0 then 0 else inter * 100 / union

/-- Lemmas of a known-task title, via the Normalizer. -/
def titleLemmas (title : String) : List String :=
  (normalize title).map (·.lemmaStr)

/-- Modelled from the spec: the configured top-K candidate count (§4.4,
default 5). -/
def topK : Nat := 5

/-- Insert a candidate into a descending-by-score list. -/
def insertCand (c : TaskCandidate) : List TaskCandidate → List TaskCandidate
  | [] => [c]
  | d :: ds => if d.score ≤ c.score then c :: d :: ds else d :: insertCand c ds

/-- Sort candidates by descending score (insertion sort). -/
def sortCandidates : List TaskCandidate → List TaskCandidate
  | [] => []
  | c :: cs => insertCand c (sortCandidates cs)

/-- Modelled from the spec: the Task Reference Matcher (§4.4) — invoked only
for non-CREATE intents; scores every known task against the residual
utterance, orders descending, truncates to top-K.  No known tasks → empty
candidate list. -/
def matchCandidates (intent : IntentLabel) (toks : List Token)
    (known : List KnownTask) : List TaskCandidate :=
  if usesMatcher intent then
    (sortCandidates (known.map fun kt =>
      { taskId := kt.id, score := similarity (residualLemmas toks) (titleLemmas kt.title) })).take topK
  else []

/-! ## Task Builder (spec §4.5) -/

/-- Modelled from the spec: the deterministic confidence combining function —
the *minimum* of the contributing confidences (intent, temporal,
candidate-match), never an average; an absent contribution does not
constrain the result (§4.5, §9). -/
def overallConfidence (intentConf : Nat) (temporalConf candidateConf : Option Nat) : Nat :=
  min intentConf (min (temporalConf.getD 100) (candidateConf.getD 100))

/-- Modelled from the spec: lower a resolved temporal value onto a concrete
schedule — instants stay, ranges take their midpoint (§4.2), recurrence
rules stay recurrence rules (§3's lossless round-trip invariant). -/
def scheduleOfTemporal : TemporalValue → Schedule
  | .instant t => .at t
  | .range lo hi => .at ((lo + hi) / 2)
  | .recurrence days m => .recurring days m

/-- Modelled from the spec: read a schedule back as a temporal value —
the recurrence half of §3's lossless round-trip. -/
def temporalOfSchedule : Schedule → TemporalValue
  | .at t => .instant t
  | .recurring days m => .recurrence days m

/-- Modelled from the spec: the closed per-locale lexicon of urgency markers
(§4.5, §6). -/
def urgencyMarkers : List String := ["urgent", "important", "asap"]

/-- Modelled from the spec: priority inference — urgency marker → HIGH,
absence → MEDIUM (§4.5). -/
def inferPriority (toks : List Token) : Priority :=
  if toks.any (fun t => urgencyMarkers.contains t.lemmaStr) then .HIGH else .MEDIUM

/-- Is index `i` inside the temporal expression's token span? -/
def inTemporalSpan (te : TemporalExpression) (i : Nat) : Bool :=
  decide (te.spanStart ≤ i ∧ i < te.spanStart + te.spanLen)

/-- Capitalize the first character of a string. -/
def capitalizeFirst (s : String) : String :=
  match s.toList with
  | [] => s
  | c :: cs => String.mk (c.toUpper :: cs)

/-- Modelled from the spec: CREATE title — the residual utterance text with
the action cue and the temporal span removed, capitalization
normalized (§4.5). -/
def residualTitle (toks : List Token) (temporal : Option TemporalExpression) : String :=
  let cueIdx := actionCueIndex toks
  let keep := toks.enum.filter fun p =>
    !(cueIdx == some p.1) &&
      (match temporal with
       | none => true
       | some te => !inTemporalSpan te p.1)
  capitalizeFirst (String.intercalate " " (keep.map (·.2.surface)))

/-- Modelled from the spec: mutation kind of a mutation-type intent. -/
def mutationKindOf : IntentLabel → Option MutationKind
  | .COMPLETE => some .complete
  | .DELETE => some .delete
  | .RESCHEDULE => some .reschedule
  | _ => none

/-- Modelled from the spec: build a mutation payload (§4.5): target id = top
`TaskCandidate` id; RESCHEDULE requires a `TemporalExpression` — absence is
a build failure (`NoTemporalAnchor`), not a silent no-op; an empty candidate
list is the `NoCandidate` failure (§4.4, §7). -/
def buildMutation (utterance : String) (kind : MutationKind) (needsTemporal : Bool)
    (intentConf : Nat) (temporal : Option TemporalExpression)
    (candidates : List TaskCandidate) : Except RejectReason ResolvedPayload :=
  if needsTemporal ∧ temporal = none then .error .NoTemporalAnchor
  else
    match candidates with
    | [] => .error .NoCandidate
    | top :: _ =>
      .ok (.mutation
        { kind := kind
          targetId := top.taskId
          newSchedule := temporal.map (fun te => scheduleOfTemporal te.value)
          sourceUtterance := utterance
          confidence := overallConfidence intentConf (temporal.map (·.confidence)) (some top.score) })

/-- Modelled from the spec: the Task Builder (§4.5) — pure function
combining intent, optional temporal expression, candidate list and the raw
utterance into a `ResolvedPayload`, or a build failure. -/
def build (utterance : String) (toks : List Token) (intentLabel : IntentLabel)
    (intentConf : Nat) (temporal : Option TemporalExpression)
    (candidates : List TaskCandidate) : Except RejectReason ResolvedPayload :=
  match intentLabel with
  | .CREATE =>
    .ok (.task
      { id := 0
        title := residualTitle toks temporal
        schedule := temporal.map (fun te => scheduleOfTemporal te.value)
        priority := inferPriority toks
        status := .PENDING
        sourceUtterance := utterance
        confidence := overallConfidence intentConf (temporal.map (·.confidence)) none })
  | .COMPLETE => buildMutation utterance .complete false intentConf temporal candidates
  | .DELETE => buildMutation utterance .delete false intentConf temporal candidates
  | .RESCHEDULE => buildMutation utterance .reschedule true intentConf temporal candidates
  | .QUERY =>
    .ok (.query candidates (temporal.map (fun te => scheduleOfTemporal te.value))
      (overallConfidence intentConf (temporal.map (·.confidence)) none))
  | .UNKNOWN => .error .UnknownIntent

/-! ## Disambiguation Policy (spec §4.6) -/

/-- Modelled from the spec: acceptance threshold (default 0.65), in
hundredths (§4.6, §6). -/
def acceptThreshold : Nat := 65

/-- Modelled from the spec: rejection floor (default 0.25), in
hundredths (§4.6). -/
def floorThreshold : Nat := 25

/-- Modelled from the spec: candidate separation margin (default 0.15), in
hundredths (§4.6). -/
def separationMargin : Nat := 15

/-- Modelled from the spec: does exactly one candidate clear the separation
margin over the runner-up (§4.6)?  A lone candidate clears trivially; an
empty list clears nothing. -/
def clearsMargin : List TaskCandidate → Bool
  | [] => false
  | [_] => true
  | a :: b :: _ => decide (b.score + separationMargin ≤ a.score)

/-- Modelled from the spec: are the top two candidates within the
separation margin — genuine reference ambiguity (§4.6, §3 invariants)? -/
def withinMargin : List TaskCandidate → Bool
  | a :: b :: _ => decide (a.score < b.score + separationMargin)
  | _ => false

/-- Confidence carried by a resolved payload. -/
def payloadConfidence : ResolvedPayload → Nat
  | .task t => t.confidence
  | .mutation m => m.confidence
  | .query _ _ c => c

/-- Schedule carried by a resolved payload. -/
def payloadSchedule : ResolvedPayload → Option Schedule
  | .task t => t.schedule
  | .mutation m => m.newSchedule
  | .query _ s _ => s

/-- Modelled from the spec: the Disambiguation Policy state machine (§4.6),
the single terminal gate START → {ACCEPT, CLARIFY, REJECT}:
REJECT on UNKNOWN intent, on a build failure (`NoTemporalAnchor`,
`NoCandidate`), or below the floor; ACCEPT iff overall confidence ≥ the
acceptance threshold and (intent is not mutation-type or exactly one
candidate clears the separation margin); CLARIFY otherwise, carrying the
ranked candidates and a reason code. -/
def disambiguate (intent : IntentLabel) (candidates : List TaskCandidate)
    (built : Except RejectReason ResolvedPayload) : PipelineResult :=
  if intent = .UNKNOWN then .Rejected .UnknownIntent
  else
    match built with
    | .error r => .Rejected r
    | .ok p =>
      if payloadConfidence p < floorThreshold then .Rejected .LowConfidence
      else if acceptThreshold ≤ payloadConfidence p ∧
          (isMutation intent = false ∨ clearsMargin candidates = true) then
        .Resolved p
      else
        .Ambiguous candidates
          (if withinMargin candidates then .AmbiguousReference else .LowIntentConfidence)

/-! ## The pipeline (spec §6 invocation contract) -/

/-- Modelled from the spec: the single invocation contract (§6) —
`process(utterance, referenceInstant, knownTasks) → PipelineResult`:
Normalizer, then Intent Classifier and Temporal Resolver, then Task
Reference Matcher, then Task Builder, then the Disambiguation Policy gate
(§2 control flow).  A pure function of its three inputs. -/
def process (utterance : String) (referenceInstant : Nat)
    (knownTasks : List KnownTask) : PipelineResult :=
  disambiguate (classifyIntent (normalize utterance)).1
    (matchCandidates (classifyIntent (normalize utterance)).1 (normalize utterance) knownTasks)
    (build utterance (normalize utterance) (classifyIntent (normalize utterance)).1
      (classifyIntent (normalize utterance)).2
      (resolveTemporal referenceInstant (normalize utterance))
      (matchCandidates (classifyIntent (normalize utterance)).1 (normalize utterance) knownTasks))

end Schedy

namespace Client

/-!
## Client embeddings (from the TypeScript sources)

These definitions embed the code of `src/client/src/pages/Welcome.tsx`
(the `Welcome` React component and the axios `request` helper it ships
with).  The JavaScript runtime pieces the code calls into (axios transport,
`JSON.stringify`, `initData.raw()`) appear as function parameters.
-/

/-- A JavaScript value as far as the client code observes it: enough to
express truthiness of the `data` argument and the `response.data` field. -/
inductive JsValue where
  | undef
  | null
  | bool (b : Bool)
  | num (n : Int)
  | str (s : String)
  deriving DecidableEq, Repr

/-- JavaScript truthiness: `undefined`, `null`, `false`, `0` and `""` are
falsy, everything else here is truthy. -/
def jsTruthy : JsValue → Bool
  | .undef => false
  | .null => false
  | .bool b => b
  | .num n => !(n == 0)
  | .str s => !(s == "")

/-- The axios request config assembled by `request`
(`src/client/src/pages/Welcome.tsx`, `axios.request({...})`). -/
structure HttpRequest where
  url : String
  method : String
  headers : List (String × String)
  body : Option String
  deriving DecidableEq, Repr

/-- The axios response as far as `request` observes it: `response.data`. -/
structure HttpResponse where
  status : Nat
  data : JsValue
  deriving DecidableEq, Repr

/-- Embedding of the request config built by `request`
(`src/client/src/pages/Welcome.tsx`):
`url` is `` `${BASE_API_URL}/api/${endpoint}` ``; `method` defaults to
`"GET"` (TypeScript default parameter, `none` = argument omitted); the
headers are exactly `initData`, `Accept` and `Content-Type`; the body is
`JSON.stringify(data)` when `data` is *truthy* (`data ? JSON.stringify(data)
: undefined`) and absent otherwise.  `stringify` stands for
`JSON.stringify`, `initDataRaw` for the `` `${initData.raw()}` `` header
value. -/
def buildRequest (stringify : JsValue → String)
    (baseApiUrl initDataRaw endpoint : String) (method : Option String)
    (data : JsValue) : HttpRequest :=
  { url := baseApiUrl ++ "/api/" ++ endpoint
    method := method.getD "GET"
    headers := [("initData", initDataRaw),
                ("Accept", "application/json"),
                ("Content-Type", "application/json")]
    body := if jsTruthy data then some (stringify data) else none }

/-- Embedding of `request` (`src/client/src/pages/Welcome.tsx`): performs
the transport call (`http` stands for `axios.request`) on the built config
and returns `response.data`. -/
def request (http : HttpRequest → HttpResponse) (stringify : JsValue → String)
    (baseApiUrl initDataRaw endpoint : String) (method : Option String)
    (data : JsValue) : JsValue :=
  (http (buildRequest stringify baseApiUrl initDataRaw endpoint method data)).data

/-- A concrete stand-in for `JSON.stringify`, for evaluating the request
helper at specific inputs. -/
def constStringify : JsValue → String := fun _ => "null"

/-- A concrete stand-in for the axios transport, for evaluating the request
helper at specific inputs. -/
def constHttp : HttpRequest → HttpResponse := fun _ => { status := 200, data := .null }

/-- An observable effect a `Welcome` event handler can perform: a console
log, or a call to the `setCurrentLayer` prop. -/
inductive Effect where
  | consoleLog (msg : String)
  | setLayer (layer : String)
  deriving DecidableEq, Repr

/-- Embedding of the `seeAllTasks` handler (`Welcome.tsx` lines 9–13): it
only logs; the `setCurrentLayer('TASKS')` next to it is a comment, not
code. -/
def seeAllTasks : List Effect := [.consoleLog "See all tasks"]

/-- Embedding of the `toggleTask` handler (`Welcome.tsx` lines 15–18): it
only logs the template literal `` `Toggle task ${taskId}` ``. -/
def toggleTask (taskId : String) : List Effect :=
  [.consoleLog ("Toggle task " ++ taskId)]

/-- Embedding of the header profile button's `onClick`
(`Welcome.tsx` line 30): `() => setCurrentLayer('PROFILE')`. -/
def profileButtonOnClick : List Effect := [.setLayer "PROFILE"]

/-- All event handlers wired in the `Welcome` JSX, with the task id the
rendered task card passes to `toggleTask` (`'morning-workout'` in the
source; kept as a parameter since the handler is invoked per card). -/
def welcomeHandlers (taskId : String) : List (List Effect) :=
  [profileButtonOnClick, seeAllTasks, toggleTask taskId]

/-- Is an effect a `setCurrentLayer` call? -/
def isSetLayer : Effect → Bool
  | .setLayer _ => true
  | _ => false

/-- The `IUser` interface (`../interfaces/IUSer`, file not in the sources):
only the `name` field is accessed by `Welcome` (line 43), so only it is
modelled. -/
structure IUser where
  name : String
  deriving DecidableEq, Repr

/-- A rendering failure: the `TypeError` JavaScript raises on a plain
member access on `undefined`. -/
inductive RenderError where
  | typeError (msg : String)
  deriving DecidableEq, Repr

/-- JS plain member access `u.name`: throws a `TypeError` when `u` is
`undefined` (what `Welcome` would do *without* the optional chain). -/
def jsGetName : Option IUser → Except RenderError String
  | none => .error (.typeError "Cannot read properties of undefined")
  | some u => .ok u.name

/-- JS optional-chained access `u?.name`: never throws; yields `undefined`
when `u` is `undefined`. -/
def jsOptGetName : Option IUser → Option String
  | none => none
  | some u => some u.name

/-- JSX text interpolation: `undefined` renders as empty text. -/
def jsxText : Option String → String
  | none => ""
  | some s => s

/-- Embedding of the `Welcome` greeting (`Welcome.tsx` line 43):
`Welcome back, {user?.name}!` — the sole access to the `user` prop, via the
optional chain. -/
def welcomeGreeting (user : Option IUser) : Except RenderError String :=
  .ok ("Welcome back, " ++ jsxText (jsOptGetName user) ++ "!")

end Client

/-!
## Theorems

The claims of the specification, settled against the embedding above.
Claims about the Voice-Command Understanding Pipeline are settled against
the spec-modelled pipeline; claims about the client code are settled
against the embedded TypeScript.
-/

open Schedy Client

/-- Policy-gate inversion (helper): an ACCEPT carries the builder's payload
unchanged, and that payload's confidence clears the acceptance threshold. -/
theorem disambiguate_resolved {i : IntentLabel} {cs : List TaskCandidate}
    {b : Except RejectReason ResolvedPayload} {p : ResolvedPayload}
    (h : disambiguate i cs b = .Resolved p) :
    b = .ok p ∧ acceptThreshold ≤ payloadConfidence p := by
  unfold disambiguate at h
  split at h
  · exact absurd h (by simp)
  · split at h
    · exact absurd h (by simp)
    · split at h
      · exact absurd h (by simp)
      · split at h
        · rename_i hq _ _ hacc
          cases h
          exact ⟨rfl, hacc.1⟩
        · exact absurd h (by simp)

/-- C1: the core exposes a single invocation contract:
`process(utterance, referenceInstant, knownTasks) → PipelineResult`, and the
result is exactly one of `Resolved`, `Ambiguous`, `Rejected` — there is no
other side channel. -/
theorem process_invocation_contract (u : String) (ref : Nat) (ks : List KnownTask) :
    (∃ p, process u ref ks = .Resolved p) ∨
    (∃ cs r, process u ref ks = .Ambiguous cs r) ∨
    (∃ r, process u ref ks = .Rejected r) := by
  cases h : process u ref ks with
  | Resolved p => exact Or.inl ⟨p, rfl⟩
  | Ambiguous cs r => exact Or.inr (Or.inl ⟨cs, r, rfl⟩)
  | Rejected r => exact Or.inr (Or.inr ⟨r, rfl⟩)

/-- C2: processing the same utterance, reference instant and known-task
snapshot twice yields an identical `PipelineResult`: `process` is a pure,
deterministic function of its three inputs with no hidden state. -/
theorem process_deterministic (u₁ u₂ : String) (t₁ t₂ : Nat)
    (k₁ k₂ : List KnownTask) (hu : u₁ = u₂) (ht : t₁ = t₂) (hk : k₁ = k₂) :
    process u₁ t₁ k₁ = process u₂ t₂ k₂ := by
  subst hu; subst ht; subst hk; rfl

/-- C2 witness. -/
theorem process_deterministic_witness :
    process "remind me to exercise at 7" 0 [] = process "remind me to exercise at 7" 0 [] :=
  process_deterministic "remind me to exercise at 7" "remind me to exercise at 7"
    0 0 [] [] rfl rfl rfl

/-- C3: every `Resolved` result carries an overall confidence at or above
the configured acceptance threshold (the spec's 0.65, here 65 hundredths). -/
theorem resolved_confidence_ge_accept_threshold (u : String) (ref : Nat)
    (ks : List KnownTask) (p : ResolvedPayload)
    (h : process u ref ks = .Resolved p) :
    acceptThreshold ≤ payloadConfidence p :=
  (disambiguate_resolved h).2

/-- C3 witness. -/
theorem resolved_confidence_ge_accept_threshold_witness :
    acceptThreshold ≤ payloadConfidence (ResolvedPayload.task
      { id := 0, title := "Me to exercise", schedule := some (.at 420),
        priority := .MEDIUM, status := .PENDING,
        sourceUtterance := "remind me to exercise at 7", confidence := 100 }) :=
  resolved_confidence_ge_accept_threshold "remind me to exercise at 7" 0 [] _ (by decide)

/-- C4: the Task Builder's confidence combination is the minimum of the
contributing component confidences (intent, temporal, candidate-match) —
the combined value is below each contribution and equals the least of them,
never a weighted average. -/
theorem overallConfidence_is_minimum (a b c : Nat) :
    overallConfidence a (some b) (some c) = min a (min b c) ∧
    overallConfidence a (some b) (some c) ≤ a ∧
    overallConfidence a (some b) (some c) ≤ b ∧
    overallConfidence a (some b) (some c) ≤ c ∧
    (overallConfidence a (some b) (some c) = a ∨
     overallConfidence a (some b) (some c) = b ∨
     overallConfidence a (some b) (some c) = c) := by
  refine ⟨rfl, min_le_left _ _, le_trans (min_le_right _ _) (min_le_left _ _),
    le_trans (min_le_right _ _) (min_le_right _ _), ?_⟩
  rcases min_choice a (min (Option.getD (some b) 100) (Option.getD (some c) 100)) with h | h
  · exact Or.inl h
  · rcases min_choice (Option.getD (some b) 100) (Option.getD (some c) 100) with h2 | h2
    · exact Or.inr (Or.inl (h.trans h2))
    · exact Or.inr (Or.inr (h.trans h2))

/-- C5: an utterance with no recognizable action lemma classifies to
UNKNOWN with confidence 0, and the pipeline rejects it with reason
`UnknownIntent`. -/
theorem unknown_intent_rejected (u : String) (ref : Nat) (ks : List KnownTask)
    (h : ∀ t ∈ normalize u, actionLexicon.lookup t.lemmaStr = none) :
    classifyIntent (normalize u) = (.UNKNOWN, 0) ∧
    process u ref ks = .Rejected .UnknownIntent := by
  have hnil : (normalize u).filterMap (fun t => actionLexicon.lookup t.lemmaStr) = [] :=
    List.filterMap_eq_nil_iff.mpr h
  have hc : classifyIntent (normalize u) = (.UNKNOWN, 0) := by
    unfold classifyIntent
    rw [hnil]
  refine ⟨hc, ?_⟩
  unfold process
  rw [hc]
  rfl

/-- C5 witness. -/
theorem unknown_intent_rejected_witness :
    classifyIntent (normalize "hello world") = (.UNKNOWN, 0) ∧
    process "hello world" 0 [] = .Rejected .UnknownIntent :=
  unknown_intent_rejected "hello world" 0 [] (by decide)

/-- C6: a RESCHEDULE-intent utterance carrying no time expression is
rejected with reason `NoTemporalAnchor` — the absent `TemporalExpression`
is a build failure surfacing through the policy gate, never a silent
no-op. -/
theorem reschedule_no_temporal_rejected (u : String) (ref : Nat)
    (ks : List KnownTask)
    (hi : (classifyIntent (normalize u)).1 = .RESCHEDULE)
    (ht : resolveTemporal ref (normalize u) = none) :
    process u ref ks = .Rejected .NoTemporalAnchor := by
  unfold process
  rw [hi, ht]
  rfl

/-- C6 witness. -/
theorem reschedule_no_temporal_rejected_witness :
    process "move the meeting" 0 [⟨1, "meeting"⟩] = .Rejected .NoTemporalAnchor :=
  reschedule_no_temporal_rejected "move the meeting" 0 [⟨1, "meeting"⟩]
    (by decide) (by decide)

/-- Builder propagation (helper): a successful build from a present
temporal expression carries `scheduleOfTemporal` of its value, unchanged,
in the payload's schedule slot. -/
theorem build_schedule_of_temporal {u : String} {toks : List Token}
    {i : IntentLabel} {ic : Nat} {te : TemporalExpression}
    {cands : List TaskCandidate} {p : ResolvedPayload}
    (h : build u toks i ic (some te) cands = .ok p) :
    payloadSchedule p = some (scheduleOfTemporal te.value) := by
  cases i
  case CREATE =>
    unfold build at h
    cases h
    rfl
  case QUERY =>
    unfold build at h
    cases h
    rfl
  case UNKNOWN =>
    exact absurd h (by simp [build])
  all_goals
    unfold build buildMutation at h
    rw [if_neg (by simp)] at h
    cases cands with
    | nil => exact absurd h (by simp)
    | cons top rest =>
      cases h
      rfl

/-- C7: a temporal expression resolved to a recurrence rule is never
collapsed to a single instant: any `Resolved` payload built from it carries
the recurrence rule intact through the Task Builder and the output, and the
schedule/temporal round-trip on recurrences is lossless. -/
theorem recurrence_round_trips (u : String) (ref : Nat) (ks : List KnownTask)
    (days : List Nat) (m : Nat) (te : TemporalExpression) (p : ResolvedPayload)
    (hte : resolveTemporal ref (normalize u) = some te)
    (hv : te.value = .recurrence days m)
    (hp : process u ref ks = .Resolved p) :
    payloadSchedule p = some (.recurring days m) ∧
    temporalOfSchedule (.recurring days m) = .recurrence days m := by
  have hb := (disambiguate_resolved hp).1
  rw [hte] at hb
  have hs := build_schedule_of_temporal hb
  rw [hv] at hs
  exact ⟨hs, rfl⟩

/-- C7 witness. -/
theorem recurrence_round_trips_witness :
    payloadSchedule (ResolvedPayload.task
      { id := 0, title := "Me to exercise",
        schedule := some (.recurring [1, 2, 3, 4, 5] 420),
        priority := .MEDIUM, status := .PENDING,
        sourceUtterance := "remind me to exercise every weekday at 7",
        confidence := 100 }) = some (.recurring [1, 2, 3, 4, 5] 420) ∧
    temporalOfSchedule (.recurring [1, 2, 3, 4, 5] 420) = .recurrence [1, 2, 3, 4, 5] 420 :=
  recurrence_round_trips "remind me to exercise every weekday at 7" 0 []
    [1, 2, 3, 4, 5] 420
    { spanStart := 4, spanLen := 4, value := .recurrence [1, 2, 3, 4, 5] 420,
      confidence := 100 }
    _ (by decide) (by decide) (by decide)

/-- C8 counterexample: the claim's "sends `JSON.stringify(data)` as the body
if and only if data is provided" fails on provided-but-falsy data.
`false` is a provided value (it is not `undefined`), yet the built request
carries no body, because the code guards the body with JavaScript
truthiness (`data ? JSON.stringify(data) : undefined`). -/
theorem request_body_iff_provided_counterexample :
    JsValue.bool false ≠ JsValue.undef ∧
    (buildRequest constStringify "https://api.example" "raw" "tasks" none
      (JsValue.bool false)).body = none :=
  ⟨by decide, rfl⟩

/-- C8 (amended): the request helper targets exactly
`BASE_API_URL ++ "/api/" ++ endpoint`, defaults the method to `"GET"` when
none is given, always sends the `initData`, `Accept: application/json` and
`Content-Type: application/json` headers, sends `JSON.stringify(data)` as
the body if and only if `data` is provided *and truthy* (a provided falsy
value such as `false`, `0` or `""` sends no body), and returns the
response's `data` field. -/
theorem request_contract (http : HttpRequest → HttpResponse)
    (stringify : JsValue → String) (baseApiUrl initDataRaw endpoint : String)
    (method : Option String) (data : JsValue) :
    (buildRequest stringify baseApiUrl initDataRaw endpoint method data).url
        = baseApiUrl ++ "/api/" ++ endpoint ∧
    (buildRequest stringify baseApiUrl initDataRaw endpoint method data).method
        = method.getD "GET" ∧
    (buildRequest stringify baseApiUrl initDataRaw endpoint method data).headers
        = [("initData", initDataRaw), ("Accept", "application/json"),
           ("Content-Type", "application/json")] ∧
    (jsTruthy data = true →
      (buildRequest stringify baseApiUrl initDataRaw endpoint method data).body
        = some (stringify data)) ∧
    (jsTruthy data = false →
      (buildRequest stringify baseApiUrl initDataRaw endpoint method data).body
        = none) ∧
    request http stringify baseApiUrl initDataRaw endpoint method data
        = (http (buildRequest stringify baseApiUrl initDataRaw endpoint method data)).data := by
  refine ⟨rfl, rfl, rfl, ?_, ?_, rfl⟩
  · intro h
    simp [buildRequest, h]
  · intro h
    simp [buildRequest, h]

/-- C8 witness. -/
theorem request_contract_witness :
    (buildRequest constStringify "https://api.example" "raw" "tasks" none
      (JsValue.str "x")).url = "https://api.example" ++ "/api/" ++ "tasks" ∧
    (buildRequest constStringify "https://api.example" "raw" "tasks" none
      (JsValue.str "x")).method = (none : Option String).getD "GET" ∧
    (buildRequest constStringify "https://api.example" "raw" "tasks" none
      (JsValue.str "x")).headers
        = [("initData", "raw"), ("Accept", "application/json"),
           ("Content-Type", "application/json")] ∧
    (buildRequest constStringify "https://api.example" "raw" "tasks" none
      (JsValue.str "x")).body = some (constStringify (JsValue.str "x")) ∧
    request constHttp constStringify "https://api.example" "raw" "tasks" none
      (JsValue.str "x")
        = (constHttp (buildRequest constStringify "https://api.example" "raw" "tasks" none
            (JsValue.str "x"))).data := by
  have h := request_contract constHttp constStringify "https://api.example" "raw"
    "tasks" none (JsValue.str "x")
  exact ⟨h.1, h.2.1, h.2.2.1, h.2.2.2.1 (by decide), h.2.2.2.2.2⟩

/-- C9: the `seeAllTasks` and `toggleTask` handlers never change any state —
every effect they perform is a console log, never a `setCurrentLayer` call;
and among all handlers wired in the `Welcome` JSX, the only
`setCurrentLayer` effect is the header profile button's, which always
passes exactly `'PROFILE'`. -/
theorem welcome_handlers_layer_discipline (taskId : String) :
    (∀ e ∈ seeAllTasks, isSetLayer e = false) ∧
    (∀ e ∈ toggleTask taskId, isSetLayer e = false) ∧
    (∀ hs ∈ welcomeHandlers taskId, ∀ e ∈ hs,
      isSetLayer e = true → e = .setLayer "PROFILE") := by
  refine ⟨?_, ?_, ?_⟩
  · intro e he
    simp only [seeAllTasks, List.mem_singleton] at he
    subst he
    rfl
  · intro e he
    simp only [toggleTask, List.mem_singleton] at he
    subst he
    rfl
  · intro hs hmem e he hset
    simp only [welcomeHandlers, List.mem_cons, List.not_mem_nil, or_false] at hmem
    rcases hmem with h1 | h1 | h1 <;> subst h1
    · simp only [profileButtonOnClick, List.mem_singleton] at he
      subst he
      rfl
    · simp only [seeAllTasks, List.mem_singleton] at he
      subst he
      exact absurd hset (by decide)
    · simp only [toggleTask, List.mem_singleton] at he
      subst he
      exact absurd hset (by simp [isSetLayer])

/-- C9 witness. -/
theorem welcome_handlers_layer_discipline_witness :
    isSetLayer (Effect.consoleLog "See all tasks") = false ∧
    isSetLayer (Effect.consoleLog ("Toggle task " ++ "morning-workout")) = false ∧
    Effect.setLayer "PROFILE" = Effect.setLayer "PROFILE" := by
  have h := welcome_handlers_layer_discipline "morning-workout"
  exact ⟨h.1 _ (by decide), h.2.1 _ (by decide),
    h.2.2 profileButtonOnClick (by decide) _ (by decide) (by decide)⟩

/-- C10: the `Welcome` greeting is total in the `user` prop — rendering
succeeds (never raises the `TypeError` of a plain member access) for
`user = undefined` as well as for any defined `IUser`, because the sole
access to `user` is the optional-chained `user?.name`, which renders as
empty text when `user` is `undefined`. -/
theorem welcome_total_in_user (user : Option IUser) :
    (welcomeGreeting user).isOk = true ∧
    welcomeGreeting none = .ok "Welcome back, !" ∧
    (∀ x : IUser, welcomeGreeting (some x)
      = .ok ("Welcome back, " ++ x.name ++ "!")) := by
  refine ⟨?_, rfl, fun x => rfl⟩
  cases user <;> rfl
